import Mathlib

/-!
Shallow embedding of the `mun` command-line driver
(`src/crates/mun/src/lib.rs`) and proofs about it.

Modelling conventions:
* A directory path is the list of its components from the filesystem
  root; the parent of a non-root directory drops the last component and
  the root has no parent.  A filesystem snapshot is a boolean predicate
  telling which directories contain the fixed-name manifest file.
* External collaborators (the `mun_runtime` crate's runtime handle and
  typed `invoke_fn!` channels, Rust's `str::parse::<u64>`, the `clap`
  argument parser, the `MUN_TERMINAL_COLOR` environment variable) are
  modelled as explicit inputs or as faithful models of their documented
  behaviour.
* Errors (`anyhow::Error`) are carried as their human-readable message
  strings in `Except String`.
-/

/-- `ExitStatus` from the source: process-level success/error outcome. -/
inductive ExitStatus where
  | Success
  | Error
deriving DecidableEq, Repr

/-- The `impl Into<ExitStatus> for bool`: `true` maps to `Success`,
`false` to `Error`. -/
def boolIntoExitStatus (b : Bool) : ExitStatus :=
  if b then ExitStatus.Success else ExitStatus.Error

/-- `mun_project::MANIFEST_FILENAME`, the fixed well-known manifest file
name (external constant; its exact text is irrelevant to the claims). -/
def MANIFEST_FILENAME : String := "mun.toml"

/-- `find_manifest` from the source: starting from `dir`, check whether
the directory contains the manifest file (`fs dir`); if so return the
joined manifest path `dir ++ [MANIFEST_FILENAME]`, otherwise move to the
parent (`dropLast`); the root (`[]`) has no parent, so the search ends
there with `none`. -/
def find_manifest (fs : List String → Bool) (dir : List String) :
    Option (List String) :=
  if fs dir then
    some (dir ++ [MANIFEST_FILENAME])
  else if h : dir = [] then
    none
  else
    find_manifest fs dir.dropLast
termination_by dir.length
decreasing_by
  have h1 : 0 < dir.length := List.length_pos_iff_ne_nil.mpr h
  simp only [List.length_dropLast]
  omega

lemma find_manifest_nil (fs : List String → Bool) :
    find_manifest fs [] = if fs [] then some [MANIFEST_FILENAME] else none := by
  rw [find_manifest]
  by_cases h : fs []
  · simp [h]
  · simp [h]

lemma find_manifest_concat (fs : List String → Bool) (l : List String)
    (x : String) :
    find_manifest fs (l ++ [x]) =
      if fs (l ++ [x]) then some (l ++ [x] ++ [MANIFEST_FILENAME])
      else find_manifest fs l := by
  rw [find_manifest]
  by_cases h : fs (l ++ [x])
  · simp [h]
  · have hne : l ++ [x] ≠ [] := by simp
    simp [h, hne, List.dropLast_concat]

lemma prefix_concat_cases {α : Type} (p l : List α) (x : α) :
    p <+: l ++ [x] ↔ p <+: l ∨ p = l ++ [x] := by
  constructor
  · intro h
    rcases Nat.lt_or_ge p.length (l.length + 1) with hlt | hge
    · left
      have hle : p.length ≤ l.length := by omega
      exact (List.isPrefix_append_of_length hle).mp h
    · right
      have hlen : p.length = (l ++ [x]).length := by
        have h2 := h.length_le
        simp only [List.length_append, List.length_singleton] at h2 ⊢
        omega
      exact h.eq_of_length hlen
  · rintro (h | rfl)
    · obtain ⟨t, rfl⟩ := h
      exact ⟨t ++ [x], by simp⟩
    · exact ⟨[], by simp⟩

/-- `find_manifest` returns "not found" exactly when no directory from the
query directory up to and including the root contains the manifest file
(the ancestors of `dir` are precisely the prefixes of its component list). -/
lemma find_manifest_eq_none_iff (fs : List String → Bool) (dir : List String) :
    find_manifest fs dir = none ↔ ∀ p, p <+: dir → fs p = false := by
  induction dir using List.reverseRecOn with
  | nil =>
      rw [find_manifest_nil]
      by_cases h : fs []
      · simp only [h, if_true]
        constructor
        · intro hc; cases hc
        · intro hall
          have h0 := hall [] ⟨[], rfl⟩
          rw [h0] at h; cases h
      · simp only [h, if_false]
        constructor
        · intro _ p hp
          obtain ⟨t, ht⟩ := hp
          have hp0 : p = [] := (List.append_eq_nil.mp ht).1
          subst hp0
          simpa using h
        · intro _; rfl
  | append_singleton l x ih =>
      rw [find_manifest_concat]
      by_cases h : fs (l ++ [x])
      · simp only [h, if_true]
        constructor
        · intro hc; cases hc
        · intro hall
          have h0 := hall (l ++ [x]) ⟨[], by simp⟩
          rw [h0] at h; cases h
      · rw [if_neg h, ih]
        constructor
        · intro hall p hp
          rcases (prefix_concat_cases p l x).mp hp with hp2 | rfl
          · exact hall p hp2
          · simpa using h
        · intro hall p hp
          exact hall p (hp.trans ⟨[x], rfl⟩)

/-- If directory `a` contains the manifest and no strictly deeper directory
on the way from `a ++ e` up to `a` does, the upward search from `a ++ e`
stops at `a` and returns its manifest path. -/
lemma find_manifest_descends (fs : List String → Bool) (a : List String)
    (e : List String)
    (hnear : ∀ i, i ≤ e.length → 1 ≤ i → fs (a ++ e.take i) = false)
    (ha : fs a = true) :
    find_manifest fs (a ++ e) = some (a ++ [MANIFEST_FILENAME]) := by
  induction e using List.reverseRecOn with
  | nil =>
      rw [List.append_nil, find_manifest]
      simp [ha]
  | append_singleton e2 x ih =>
      rw [← List.append_assoc, find_manifest_concat]
      have h1 := hnear (e2.length + 1) (by simp) (by omega)
      have h2 : (e2 ++ [x]).take (e2.length + 1) = e2 ++ [x] := by
        have hl : (e2 ++ [x]).length = e2.length + 1 := by simp
        rw [← hl, List.take_length]
      rw [h2, ← List.append_assoc] at h1
      simp only [h1, if_false]
      refine ih (fun i hi h1i => ?_)
      have h3 := hnear i (by simp; omega) h1i
      have h4 : (e2 ++ [x]).take i = e2.take i := by
        rw [List.take_append_eq_append_take]
        have h5 : i - e2.length = 0 := by omega
        simp [h5]
      rwa [h4] at h3

/-- C5: the manifest locator examines the starting directory and each
successive ancestor in order and returns the manifest path of the first
(nearest) directory containing the fixed-name descriptor file; it returns
"not found" exactly when no directory from the start up to and including
the root contains it.  In particular, with the manifest at ancestor `a`
and the query `k = e.length` levels below it, the ancestor's manifest path
is returned. -/
theorem find_manifest_nearest_ancestor (fs : List String → Bool)
    (a e : List String)
    (ha : fs a = true)
    (hnear : ∀ i, i ≤ e.length → 1 ≤ i → fs (a ++ e.take i) = false) :
    find_manifest fs (a ++ e) = some (a ++ [MANIFEST_FILENAME]) ∧
      ∀ dir : List String,
        (find_manifest fs dir = none ↔ ∀ p, p <+: dir → fs p = false) :=
  ⟨find_manifest_descends fs a e hnear ha,
   fun dir => find_manifest_eq_none_iff fs dir⟩

/-- Witness for C5: a manifest at `root`, queried from `root/a/b/c`,
resolves to `root`'s manifest path. -/
theorem find_manifest_nearest_ancestor_witness :
    find_manifest (fun d => d == ["root"]) (["root"] ++ ["a", "b", "c"]) =
      some (["root"] ++ [MANIFEST_FILENAME]) :=
  (find_manifest_nearest_ancestor (fun d => d == ["root"]) ["root"]
    ["a", "b", "c"] (by decide)
    (by
      intro i hi h1i
      have hi3 : i ≤ 3 := by simpa using hi
      interval_cases i <;> decide)).1

/-- A type-identity token (`abi::Guid` in the runtime): a stable,
content-derived identifier for a type.  Modelled as a natural number;
only equality between tokens matters to the invoker. -/
abbrev TypeGuid : Type := Nat

/-- `bool::type_guid()` from the `ReturnTypeReflection` impl for `bool`.
The three native guids are pairwise distinct content-derived constants;
their concrete values are irrelevant. -/
def boolTypeGuid : TypeGuid := (0 : Nat)

/-- `f64::type_guid()`. -/
def f64TypeGuid : TypeGuid := (1 : Nat)

/-- `i64::type_guid()`. -/
def i64TypeGuid : TypeGuid := (2 : Nat)

/-- The runtime's type information for a declared type: its guid and its
human-readable name (`ret_type.name()`). -/
structure TypeInfo where
  guid : TypeGuid
  name : String

/-- A function signature as exposed by the runtime: the claims only need
the optional declared return type (`signature.return_type()`). -/
structure FunctionSignature where
  return_type : Option TypeInfo

/-- `fn_definition.prototype` wrapper. -/
structure FunctionPrototype where
  signature : FunctionSignature

/-- A Function Descriptor resolved by name on the runtime handle. -/
structure FunctionDefinition where
  prototype : FunctionPrototype

/-- Model of a 64-bit float value produced by the external runtime.
Floating point is not shallowly embeddable; a value is represented by the
decimal text Rust's `Display` renders for it. -/
structure F64 where
  display : String

/-- Model of the external `mun_runtime` handle: function lookup
(`get_function_definition`) plus the typed `invoke_fn!` channels the
`start` command uses.  Each channel either fails with an error message
(native panic, missing symbol, argument mismatch) or yields a value of
the requested native representation. -/
structure Runtime where
  get_function_definition : String → Option FunctionDefinition
  invoke_fn_bool : String → Except String Bool
  invoke_fn_f64 : String → Except String F64
  invoke_fn_i64 : String → Except String Int
  invoke_fn_unit : String → Except String Unit

/-- Observable effects of a `start` run: native invocation attempts and
lines printed to stdout by `println!`. -/
inductive Event where
  | invoked (entry : String)
  | printedLine (s : String)
deriving DecidableEq, Repr

/-- `start` from the source, given the already-constructed runtime handle
and the optional `--entry` flag value.  Returns the ordered list of
observable events together with the command's result.  Mirrors the
source: resolve the entry name (default `"main"`), look up the function
definition (absence is the "Failed to obtain entry point" error), then
dispatch on the declared return type's guid against `bool`, `f64`, `i64`
in that order, refusing any other type by name before any invocation;
with no declared return type, invoke and succeed with no printed value. -/
def start (rt : Runtime) (entryFlag : Option String) :
    List Event × Except String ExitStatus :=
  let entry_point := entryFlag.getD "main"
  match rt.get_function_definition entry_point with
  | none =>
      ([], Except.error
        ("Failed to obtain entry point \x27" ++ entry_point ++ "\x27"))
  | some fn_definition =>
      match fn_definition.prototype.signature.return_type with
      | some ret_type =>
          if ret_type.guid = boolTypeGuid then
            match rt.invoke_fn_bool entry_point with
            | Except.error e => ([Event.invoked entry_point], Except.error e)
            | Except.ok result =>
                ([Event.invoked entry_point,
                  Event.printedLine (if result then "true" else "false")],
                 Except.ok ExitStatus.Success)
          else if ret_type.guid = f64TypeGuid then
            match rt.invoke_fn_f64 entry_point with
            | Except.error e => ([Event.invoked entry_point], Except.error e)
            | Except.ok result =>
                ([Event.invoked entry_point, Event.printedLine result.display],
                 Except.ok ExitStatus.Success)
          else if ret_type.guid = i64TypeGuid then
            match rt.invoke_fn_i64 entry_point with
            | Except.error e => ([Event.invoked entry_point], Except.error e)
            | Except.ok result =>
                ([Event.invoked entry_point, Event.printedLine (toString result)],
                 Except.ok ExitStatus.Success)
          else
            ([], Except.error
              ("Only native Mun return types are supported for entry points. Found: "
                ++ ret_type.name))
      | none =>
          match rt.invoke_fn_unit entry_point with
          | Except.error e => ([Event.invoked entry_point], Except.error e)
          | Except.ok _ => ([Event.invoked entry_point], Except.ok ExitStatus.Success)

/-- C1: if the declared return type's guid matches none of `bool`, `f64`,
`i64` (checked in that order), `start` returns the error naming the
offending type and performs no native invocation (no `invoked` event). -/
theorem start_refuses_unsupported_return_type (rt : Runtime)
    (entryFlag : Option String) (fd : FunctionDefinition) (ret : TypeInfo)
    (hfd : rt.get_function_definition (entryFlag.getD "main") = some fd)
    (hret : fd.prototype.signature.return_type = some ret)
    (hb : ret.guid ≠ boolTypeGuid) (hf : ret.guid ≠ f64TypeGuid)
    (hi : ret.guid ≠ i64TypeGuid) :
    start rt entryFlag =
      ([], Except.error
        ("Only native Mun return types are supported for entry points. Found: "
          ++ ret.name)) := by
  simp [start, hfd, hret, hb, hf, hi]

/-- Runtime whose `main` declares a return type outside the allow-list. -/
def unsupportedReturnRuntime : Runtime where
  get_function_definition := fun n =>
    if n = "main" then some ⟨⟨⟨some ⟨(7 : Nat), "FooStruct"⟩⟩⟩⟩ else none
  invoke_fn_bool := fun _ => Except.error "unreachable"
  invoke_fn_f64 := fun _ => Except.error "unreachable"
  invoke_fn_i64 := fun _ => Except.error "unreachable"
  invoke_fn_unit := fun _ => Except.error "unreachable"

/-- Witness for C1 at a concrete runtime: the refusal names `FooStruct`
and the event trace is empty. -/
theorem start_refuses_unsupported_return_type_witness :
    start unsupportedReturnRuntime none =
      ([], Except.error
        ("Only native Mun return types are supported for entry points. Found: "
          ++ "FooStruct")) :=
  start_refuses_unsupported_return_type unsupportedReturnRuntime none
    ⟨⟨⟨some ⟨(7 : Nat), "FooStruct"⟩⟩⟩⟩ ⟨(7 : Nat), "FooStruct"⟩
    rfl rfl (by decide) (by decide) (by decide)

/-- C2: when the declared return type matches the allow-list, the selected
invoke-and-decode path requests the value in that native representation
and prints its canonical text (`true`/`false` for booleans, the decimal
float text for `f64`, the decimal integer for `i64`), and the command's
result is the `Success` exit status. -/
theorem start_prints_native_return (rt : Runtime) (entryFlag : Option String)
    (fd : FunctionDefinition) (ret : TypeInfo)
    (hfd : rt.get_function_definition (entryFlag.getD "main") = some fd)
    (hret : fd.prototype.signature.return_type = some ret) :
    (ret.guid = boolTypeGuid →
      ∀ b : Bool, rt.invoke_fn_bool (entryFlag.getD "main") = Except.ok b →
        start rt entryFlag =
          ([Event.invoked (entryFlag.getD "main"),
            Event.printedLine (if b then "true" else "false")],
           Except.ok ExitStatus.Success)) ∧
    (ret.guid = f64TypeGuid →
      ∀ v : F64, rt.invoke_fn_f64 (entryFlag.getD "main") = Except.ok v →
        start rt entryFlag =
          ([Event.invoked (entryFlag.getD "main"),
            Event.printedLine v.display],
           Except.ok ExitStatus.Success)) ∧
    (ret.guid = i64TypeGuid →
      ∀ n : Int, rt.invoke_fn_i64 (entryFlag.getD "main") = Except.ok n →
        start rt entryFlag =
          ([Event.invoked (entryFlag.getD "main"),
            Event.printedLine (toString n)],
           Except.ok ExitStatus.Success)) := by
  refine ⟨?_, ?_, ?_⟩ <;> intro hg val hinv <;>
    simp [start, hfd, hret, hg, hinv, boolTypeGuid, f64TypeGuid, i64TypeGuid]

/-- Runtime whose `main` declares a `bool` return type and yields `true`. -/
def boolTrueRuntime : Runtime where
  get_function_definition := fun _ =>
    some ⟨⟨⟨some ⟨boolTypeGuid, "core::bool"⟩⟩⟩⟩
  invoke_fn_bool := fun _ => Except.ok true
  invoke_fn_f64 := fun _ => Except.error "type mismatch"
  invoke_fn_i64 := fun _ => Except.error "type mismatch"
  invoke_fn_unit := fun _ => Except.error "type mismatch"

/-- Witness for C2: a boolean-returning entry point yielding `true`
prints exactly `true` and the result is the Success exit status. -/
theorem start_prints_native_return_witness :
    start boolTrueRuntime none =
      ([Event.invoked "main", Event.printedLine "true"],
       Except.ok ExitStatus.Success) :=
  (start_prints_native_return boolTrueRuntime none
    ⟨⟨⟨some ⟨boolTypeGuid, "core::bool"⟩⟩⟩⟩ ⟨boolTypeGuid, "core::bool"⟩
    rfl rfl).1 rfl true rfl

/-- C3: with no declared return type, `start` invokes the entry point;
on success it reports `Success` with no printed value (the trace holds
the invocation and nothing else), and an invocation failure is caught and
re-surfaced as the command's single reported error. -/
theorem start_unit_entry_point (rt : Runtime) (entryFlag : Option String)
    (fd : FunctionDefinition)
    (hfd : rt.get_function_definition (entryFlag.getD "main") = some fd)
    (hret : fd.prototype.signature.return_type = none) :
    (rt.invoke_fn_unit (entryFlag.getD "main") = Except.ok () →
      start rt entryFlag =
        ([Event.invoked (entryFlag.getD "main")], Except.ok ExitStatus.Success)) ∧
    (∀ e : String, rt.invoke_fn_unit (entryFlag.getD "main") = Except.error e →
      start rt entryFlag =
        ([Event.invoked (entryFlag.getD "main")], Except.error e)) := by
  constructor
  · intro hinv
    simp [start, hfd, hret, hinv]
  · intro e hinv
    simp [start, hfd, hret, hinv]

/-- Runtime whose `main` declares no return type and invokes cleanly. -/
def unitRuntime : Runtime where
  get_function_definition := fun _ => some ⟨⟨⟨none⟩⟩⟩
  invoke_fn_bool := fun _ => Except.error "type mismatch"
  invoke_fn_f64 := fun _ => Except.error "type mismatch"
  invoke_fn_i64 := fun _ => Except.error "type mismatch"
  invoke_fn_unit := fun _ => Except.ok ()

/-- Witness for C3: a no-return-type entry point succeeds with no printed
output. -/
theorem start_unit_entry_point_witness :
    start unitRuntime none =
      ([Event.invoked "main"], Except.ok ExitStatus.Success) :=
  (start_unit_entry_point unitRuntime none ⟨⟨⟨none⟩⟩⟩ rfl rfl).1 rfl

/-- C4: `start` resolves the entry-point name from the `--entry` flag and
defaults to `"main"` when it is absent; when lookup yields no descriptor
for the requested name, the command fails with the error naming that
entry point and no invocation occurs (empty event trace). -/
theorem start_entry_resolution (rt : Runtime) :
    start rt none = start rt (some "main") ∧
    ∀ name : String, rt.get_function_definition name = none →
      start rt (some name) =
        ([], Except.error
          ("Failed to obtain entry point \x27" ++ name ++ "\x27")) := by
  constructor
  · rfl
  · intro name hnone
    simp [start, hnone]

/-- Runtime with no functions at all. -/
def emptyRuntime : Runtime where
  get_function_definition := fun _ => none
  invoke_fn_bool := fun _ => Except.error "unreachable"
  invoke_fn_f64 := fun _ => Except.error "unreachable"
  invoke_fn_i64 := fun _ => Except.error "unreachable"
  invoke_fn_unit := fun _ => Except.error "unreachable"

/-- Witness for C4: looking up a missing entry point reports the
"failed to obtain entry point" error naming it, with no invocation. -/
theorem start_entry_resolution_witness :
    start emptyRuntime (some "missing") =
      ([], Except.error "Failed to obtain entry point \x27missing\x27") :=
  (start_entry_resolution emptyRuntime).2 "missing" rfl

/-- `mun_compiler::OptimizationLevel`: the four ordered levels. -/
inductive OptimizationLevel where
  | None
  | Less
  | Default
  | Aggressive
deriving DecidableEq, Repr

/-- `mun_compiler::DisplayColor`. -/
inductive DisplayColor where
  | Enable
  | Disable
  | Auto
deriving DecidableEq, Repr

/-- `mun_compiler::Config` as populated by `compiler_options`. -/
structure Config where
  target : String
  optimization_lvl : OptimizationLevel
  out_dir : Option String
  display_color : DisplayColor
deriving DecidableEq, Repr

/-- The `match matches.value_of("opt-level")` arms of `compiler_options`:
`"0"`/`"1"`/`"2"`/`"3"` map to the four ordered levels, absence defaults
to `Default`, everything else is the usage error. -/
def parse_opt_level : Option String → Except String OptimizationLevel
  | some "0" => Except.ok OptimizationLevel.None
  | some "1" => Except.ok OptimizationLevel.Less
  | none | some "2" => Except.ok OptimizationLevel.Default
  | some "3" => Except.ok OptimizationLevel.Aggressive
  | _ => Except.error "Only optimization levels 0-3 are supported"

/-- The `display_color` expression of `compiler_options`: the `--color`
flag value, or else the `MUN_TERMINAL_COLOR` environment value, mapped
through the `disable`/`enable`/fallback match, defaulting to `Auto`. -/
def resolve_display_color (colorFlag envColor : Option String) : DisplayColor :=
  ((colorFlag.orElse (fun _ => envColor)).map (fun value =>
      match value with
      | "disable" => DisplayColor.Disable
      | "enable" => DisplayColor.Enable
      | _ => DisplayColor.Auto)).getD DisplayColor.Auto

/-- The `target` expression of `compiler_options`:
`map_or_else(Target::host_target, Target::search)` with the two external
resolvers passed in explicitly. -/
def resolve_target (host_target : Except String String)
    (target_search : String → Except String String) :
    Option String → Except String String
  | none => host_target
  | some t => target_search t

/-- `compiler_options` from the source: the optimization level is parsed
first (its usage error returns before anything else is produced), then
the color mode is resolved, then the target, and the `Config` record is
assembled. -/
def compiler_options (host_target : Except String String)
    (target_search : String → Except String String)
    (optLevelFlag targetFlag colorFlag envColor : Option String) :
    Except String Config :=
  match parse_opt_level optLevelFlag with
  | Except.error e => Except.error e
  | Except.ok optimization_lvl =>
      let display_color := resolve_display_color colorFlag envColor
      match resolve_target host_target target_search targetFlag with
      | Except.error e => Except.error e
      | Except.ok target =>
          Except.ok { target := target, optimization_lvl := optimization_lvl,
                      out_dir := none, display_color := display_color }

lemma compiler_options_opt_of_ok (ht : Except String String)
    (ts : String → Except String String) (o tf cf ev : Option String)
    (lvl : OptimizationLevel) (cfg : Config)
    (hp : parse_opt_level o = Except.ok lvl)
    (h : compiler_options ht ts o tf cf ev = Except.ok cfg) :
    cfg.optimization_lvl = lvl := by
  unfold compiler_options at h
  rw [hp] at h
  cases htg : resolve_target ht ts tf with
  | error e => rw [htg] at h; cases h
  | ok t => rw [htg] at h; cases h; rfl

lemma compiler_options_opt_err (ht : Except String String)
    (ts : String → Except String String) (o tf cf ev : Option String)
    (m : String) (hp : parse_opt_level o = Except.error m) :
    compiler_options ht ts o tf cf ev = Except.error m := by
  unfold compiler_options
  rw [hp]

lemma parse_opt_level_unsupported (v : String) (h0 : v ≠ "0") (h1 : v ≠ "1")
    (h2 : v ≠ "2") (h3 : v ≠ "3") :
    parse_opt_level (some v) =
      Except.error "Only optimization levels 0-3 are supported" := by
  unfold parse_opt_level
  split <;> simp_all

/-- C6: optimization flags `"0"`,`"1"`,`"2"`,`"3"` map to the four ordered
levels respectively, absence defaults to `Default`, and any other value
fails with the usage error naming the supported range, producing no
configuration. -/
theorem compiler_options_opt_level_mapping (ht : Except String String)
    (ts : String → Except String String) (tf cf ev : Option String) :
    (∀ cfg, compiler_options ht ts (some "0") tf cf ev = Except.ok cfg →
        cfg.optimization_lvl = OptimizationLevel.None) ∧
    (∀ cfg, compiler_options ht ts (some "1") tf cf ev = Except.ok cfg →
        cfg.optimization_lvl = OptimizationLevel.Less) ∧
    (∀ cfg, compiler_options ht ts (some "2") tf cf ev = Except.ok cfg →
        cfg.optimization_lvl = OptimizationLevel.Default) ∧
    (∀ cfg, compiler_options ht ts (some "3") tf cf ev = Except.ok cfg →
        cfg.optimization_lvl = OptimizationLevel.Aggressive) ∧
    (∀ cfg, compiler_options ht ts none tf cf ev = Except.ok cfg →
        cfg.optimization_lvl = OptimizationLevel.Default) ∧
    (∀ v, v ≠ "0" → v ≠ "1" → v ≠ "2" → v ≠ "3" →
        compiler_options ht ts (some v) tf cf ev =
          Except.error "Only optimization levels 0-3 are supported") := by
  refine ⟨fun cfg h =>
      compiler_options_opt_of_ok ht ts (some "0") tf cf ev _ cfg rfl h,
    fun cfg h =>
      compiler_options_opt_of_ok ht ts (some "1") tf cf ev _ cfg rfl h,
    fun cfg h =>
      compiler_options_opt_of_ok ht ts (some "2") tf cf ev _ cfg rfl h,
    fun cfg h =>
      compiler_options_opt_of_ok ht ts (some "3") tf cf ev _ cfg rfl h,
    fun cfg h =>
      compiler_options_opt_of_ok ht ts none tf cf ev _ cfg rfl h,
    fun v h0 h1 h2 h3 => compiler_options_opt_err ht ts _ tf cf ev _
      (parse_opt_level_unsupported v h0 h1 h2 h3)⟩

/-- Witness for C6: flag value `"4"` is rejected with the usage error. -/
theorem compiler_options_opt_level_mapping_witness :
    compiler_options (Except.ok "x86_64-unknown-linux-gnu")
        (fun t => Except.ok t) (some "4") none none none =
      Except.error "Only optimization levels 0-3 are supported" :=
  (compiler_options_opt_level_mapping (Except.ok "x86_64-unknown-linux-gnu")
      (fun t => Except.ok t) none none none).2.2.2.2.2 "4"
    (by decide) (by decide) (by decide) (by decide)

lemma compiler_options_color_of_ok (ht : Except String String)
    (ts : String → Except String String) (o tf cf ev : Option String)
    (c : DisplayColor) (cfg : Config)
    (hc : resolve_display_color cf ev = c)
    (h : compiler_options ht ts o tf cf ev = Except.ok cfg) :
    cfg.display_color = c := by
  unfold compiler_options at h
  cases hp : parse_opt_level o with
  | error e => rw [hp] at h; cases h
  | ok lvl =>
      rw [hp] at h
      cases htg : resolve_target ht ts tf with
      | error e => rw [htg] at h; cases h
      | ok t => rw [htg] at h; cases h; exact hc

lemma resolve_display_color_env_unrecognized (v : String)
    (he : v ≠ "enable") (hd : v ≠ "disable") :
    resolve_display_color none (some v) = DisplayColor.Auto := by
  have h1 : ∀ w : String, resolve_display_color none (some w) =
      (match w with
       | "disable" => DisplayColor.Disable
       | "enable" => DisplayColor.Enable
       | _ => DisplayColor.Auto) := fun _ => rfl
  rw [h1 v]
  split <;> simp_all

/-- C7: color-mode precedence is explicit flag > environment variable >
`Auto`: a present flag alone determines the mode (`enable` beats an
environment `disable`, and the environment value is ignored outright); an
environment-only `enable`/`disable` determines the mode; an unrecognized
environment value falls back silently to `Auto`; with neither set the
mode is `Auto`. -/
theorem compiler_options_color_precedence (ht : Except String String)
    (ts : String → Except String String) (o tf : Option String) :
    (∀ v ev1 ev2, compiler_options ht ts o tf (some v) ev1 =
        compiler_options ht ts o tf (some v) ev2) ∧
    (∀ cfg, compiler_options ht ts o tf (some "enable") (some "disable") =
        Except.ok cfg → cfg.display_color = DisplayColor.Enable) ∧
    (∀ cfg, compiler_options ht ts o tf none (some "enable") = Except.ok cfg →
        cfg.display_color = DisplayColor.Enable) ∧
    (∀ cfg, compiler_options ht ts o tf none (some "disable") = Except.ok cfg →
        cfg.display_color = DisplayColor.Disable) ∧
    (∀ v cfg, v ≠ "enable" → v ≠ "disable" →
        compiler_options ht ts o tf none (some v) = Except.ok cfg →
        cfg.display_color = DisplayColor.Auto) ∧
    (∀ cfg, compiler_options ht ts o tf none none = Except.ok cfg →
        cfg.display_color = DisplayColor.Auto) := by
  refine ⟨fun v ev1 ev2 => rfl,
    fun cfg h => compiler_options_color_of_ok ht ts o tf (some "enable")
      (some "disable") _ cfg rfl h,
    fun cfg h => compiler_options_color_of_ok ht ts o tf none
      (some "enable") _ cfg rfl h,
    fun cfg h => compiler_options_color_of_ok ht ts o tf none
      (some "disable") _ cfg rfl h,
    fun v cfg he hd h => compiler_options_color_of_ok ht ts o tf none
      (some v) _ cfg (resolve_display_color_env_unrecognized v he hd) h,
    fun cfg h => compiler_options_color_of_ok ht ts o tf none none _ cfg
      rfl h⟩

/-- Witness for C7: flag `enable` with environment `disable` resolves to
`Enable` (the flag wins). -/
theorem compiler_options_color_precedence_witness :
    compiler_options (Except.ok "host") (fun t => Except.ok t) none none
        (some "enable") (some "disable") =
      Except.ok { target := "host",
                  optimization_lvl := OptimizationLevel.Default,
                  out_dir := none, display_color := DisplayColor.Enable } ∧
    Config.display_color
        { target := "host", optimization_lvl := OptimizationLevel.Default,
          out_dir := none, display_color := DisplayColor.Enable } =
      DisplayColor.Enable :=
  ⟨rfl,
   (compiler_options_color_precedence (Except.ok "host") (fun t => Except.ok t)
      none none).2.1 _ rfl⟩

/-- The external `mun_runtime::RuntimeBuilder` as configured by the
`runtime` function: the required library path and the reload debounce
delay in milliseconds. -/
structure RuntimeBuilder where
  library : String
  delay_ms : Nat
deriving DecidableEq, Repr

/-- `RuntimeBuilder::new(library)`.  Modelled from the spec: the
`mun_runtime` crate is not under `src/`; per the spec the builder's
default reload debounce delay is about 10 ms, taken here as exactly
10 ms. -/
def RuntimeBuilder.new (library : String) : RuntimeBuilder :=
  { library := library, delay_ms := 10 }

/-- `RuntimeBuilder::set_delay(Duration::from_millis(delay))`. -/
def RuntimeBuilder.set_delay (b : RuntimeBuilder) (delay_ms : Nat) :
    RuntimeBuilder :=
  { b with delay_ms := delay_ms }

/-- Model of Rust's `str::parse::<u64>` used for the `--delay` value: an
optional leading `+`, then one or more ASCII digits, rejecting an empty
numeral, any non-digit character, and values that overflow 64 bits.
Works on the string's character list. -/
def parse_u64 (s : String) : Except String Nat :=
  let t := match s.data with
    | '+' :: rest => rest
    | cs => cs
  if t = [] then
    Except.error "cannot parse integer from empty string"
  else if t.all Char.isDigit then
    let n := t.foldl (fun acc c => acc * 10 + (c.toNat - 48)) 0
    if n < 2 ^ 64 then Except.ok n
    else Except.error "number too large to fit in target type"
  else Except.error "invalid digit found in string"

/-- `runtime` from the source: build a `RuntimeBuilder` for the required
`LIBRARY` argument; when the `--delay` flag is present, parse its value
as a `u64` (a parse failure propagates as the command's error through
`?`) and set it as the delay; the configured builder is then handed to
the external `spawn`. -/
def runtime (library : String) (delayFlag : Option String) :
    Except String RuntimeBuilder :=
  let builder := RuntimeBuilder.new library
  match delayFlag with
  | some delay =>
      match parse_u64 delay with
      | Except.error e => Except.error e
      | Except.ok d => Except.ok (builder.set_delay d)
  | none => Except.ok builder

/-- C8: a `--delay` value that parses as a non-negative integer `n`
configures an `n`-millisecond reload debounce on the builder; absence of
the flag leaves the builder's 10 ms default; a malformed value fails with
the reported parse error (never a crash). -/
theorem runtime_delay_configuration (library : String) :
    (∀ s n, parse_u64 s = Except.ok n →
        runtime library (some s) =
          Except.ok { library := library, delay_ms := n }) ∧
    runtime library none = Except.ok { library := library, delay_ms := 10 } ∧
    (∀ s e, parse_u64 s = Except.error e →
        runtime library (some s) = Except.error e) := by
  refine ⟨fun s n h => ?_, rfl, fun s e h => ?_⟩
  · simp [runtime, h, RuntimeBuilder.new, RuntimeBuilder.set_delay]
  · simp [runtime, h]

/-- Witness for C8: `--delay 25` configures a 25 ms debounce and
`--delay abc` is rejected with a parse error. -/
theorem runtime_delay_configuration_witness :
    runtime "main.munlib" (some "25") =
      Except.ok { library := "main.munlib", delay_ms := 25 } ∧
    runtime "main.munlib" (some "abc") =
      Except.error "invalid digit found in string" :=
  ⟨(runtime_delay_configuration "main.munlib").1 "25" 25 rfl,
   (runtime_delay_configuration "main.munlib").2.2 "abc"
     "invalid digit found in string" rfl⟩

/-- The matches captured for each subcommand by the argument parser. -/
inductive Command where
  | build (manifestPath : Option String) (watch : Bool)
      (optLevel targetFlag colorFlag : Option String)
  | start (library : String) (entry delayFlag : Option String)
  | languageServer
  | new (path : String) (quiet : Bool)

/-- Outcome of `clap`'s `get_matches_from_safe` (external collaborator):
either a parsed subcommand or a parse error carrying the message the
driver prints to stderr. -/
inductive ParseResult where
  | ok (cmd : Command)
  | err (message : String)

/-- `run_with_args` from the source, parametrized by the external
argument parser and the four subcommand handlers.  The result pairs the
text printed to stderr with the command's `Result<ExitStatus>`: a parsed
subcommand dispatches to its handler (`start`'s exit status additionally
mapped to `Success`), while a parse error is printed to stderr and
reported as `Ok(ExitStatus::Error)`. -/
def run_with_args (parse : List String → ParseResult)
    (runBuild : Option String → Bool → Option String → Option String →
      Option String → Except String ExitStatus)
    (runNew : String → Bool → Except String ExitStatus)
    (runLanguageServer : Except String ExitStatus)
    (runStart : String → Option String → Option String →
      Except String ExitStatus)
    (args : List String) : String × Except String ExitStatus :=
  match parse args with
  | ParseResult.ok (Command.build mp w o t c) => ("", runBuild mp w o t c)
  | ParseResult.ok (Command.new p q) => ("", runNew p q)
  | ParseResult.ok Command.languageServer => ("", runLanguageServer)
  | ParseResult.ok (Command.start lib e d) =>
      ("", (runStart lib e d).map (fun _ => ExitStatus.Success))
  | ParseResult.err e => (e, Except.ok ExitStatus.Error)

/-- C10: whenever the argument parser rejects the argument vector, the
driver prints the parser's message to stderr and returns `Ok` with the
`Error` exit status — the `Err` branch of its result is never taken for
argument-parsing failures. -/
theorem run_with_args_parse_error (parse : List String → ParseResult)
    (runBuild : Option String → Bool → Option String → Option String →
      Option String → Except String ExitStatus)
    (runNew : String → Bool → Except String ExitStatus)
    (runLanguageServer : Except String ExitStatus)
    (runStart : String → Option String → Option String →
      Except String ExitStatus)
    (args : List String) (msg : String)
    (h : parse args = ParseResult.err msg) :
    run_with_args parse runBuild runNew runLanguageServer runStart args =
      (msg, Except.ok ExitStatus.Error) := by
  simp [run_with_args, h]

/-- A parser that rejects every argument vector, standing in for `clap`
refusing an unknown subcommand. -/
def rejectingParse : List String → ParseResult :=
  fun _ => ParseResult.err "error: unrecognized subcommand"

/-- Witness for C10: a rejected argument vector yields the parser message
on stderr and the `Ok(Error)` outcome. -/
theorem run_with_args_parse_error_witness :
    run_with_args rejectingParse
      (fun _ _ _ _ _ => Except.ok ExitStatus.Success)
      (fun _ _ => Except.ok ExitStatus.Success)
      (Except.ok ExitStatus.Success)
      (fun _ _ _ => Except.ok ExitStatus.Success)
      ["mun", "frobnicate"] =
      ("error: unrecognized subcommand", Except.ok ExitStatus.Error) :=
  run_with_args_parse_error rejectingParse
    (fun _ _ _ _ _ => Except.ok ExitStatus.Success)
    (fun _ _ => Except.ok ExitStatus.Success)
    (Except.ok ExitStatus.Success)
    (fun _ _ _ => Except.ok ExitStatus.Success)
    ["mun", "frobnicate"] "error: unrecognized subcommand" rfl
